import Mathlib

/-!
Shallow embedding of `custom_components/vicare/climate.py` (the ViCare
climate adapter): the mode/preset translation tables, the cached snapshot
state of `ViCareClimate`, the `update` poll, the read accessors and the
write operations.  Python exceptions are modelled by explicit error types;
vendor writes are modelled as a trace of emitted calls; the Python `dict`
`self._attributes` is an insertion-ordered association list.
-/

set_option autoImplicit false

namespace ViCare

/-- Errors a vendor-API read can signal, per the external-interface taxonomy:
`notSupported` is `PyViCareNotSupportedFeatureError`; the other four are the
classes named in `update`'s `except` clauses (`requests` connection error,
`PyViCareRateLimitError`, `ValueError` decode failure,
`PyViCareInvalidDataError`). -/
inductive ReadErr where
  | notSupported
  | connectionError
  | rateLimitError (msg : String)
  | valueError
  | invalidDataError (msg : String)
deriving DecidableEq, Repr

/-- Whether `update`'s `except` clauses catch this error (all but
`notSupported`, which only the per-read `suppress` blocks handle). -/
def ReadErr.serious : ReadErr → Bool
  | .notSupported => false
  | _ => true

/-- Errors a write operation can raise to its caller: Python `ValueError`
(invalid argument) and `KeyError` (missing dict key); `typeError` covers a
membership test on a non-list attribute value (unreachable from reachable
states). -/
inductive SetErr where
  | valueError (msg : String)
  | keyError (k : String)
  | typeError
deriving DecidableEq, Repr

/-- A value stored in the `self._attributes` dict: `None`, a number, a
string, or the vendor-mode list. -/
inductive AttrVal where
  | vNone
  | vNum (q : ℚ)
  | vStr (s : String)
  | vModes (ms : List String)
deriving DecidableEq, Repr

/-- `d[k]` lookup on an insertion-ordered dict (first matching key). -/
def dictGet (d : List (String × AttrVal)) (k : String) : Option AttrVal :=
  match d with
  | [] => none
  | (k', v) :: rest => if k' = k then some v else dictGet rest k

/-- `d[k] = v` assignment on an insertion-ordered dict: overwrite in place,
else append. -/
def dictSet (d : List (String × AttrVal)) (k : String) (v : AttrVal) :
    List (String × AttrVal) :=
  match d with
  | [] => [(k, v)]
  | (k', v') :: rest =>
      if k' = k then (k, v) :: rest else (k', v') :: dictSet rest k v

/-- `t.get(k)` on a string-to-string dict literal (the translation tables). -/
def tableGet (t : List (String × String)) (k : String) : Option String :=
  match t with
  | [] => none
  | (k', v) :: rest => if k' = k then some v else tableGet rest k

/-- `t.get(k)` where the key may be `None` (`dict.get(None)` is `None` for
these tables, whose keys are all strings). -/
def tableGetOpt (t : List (String × String)) (k : Option String) : Option String :=
  match k with
  | none => none
  | some k => tableGet t k

-- Vendor mode constants (module-level constants of the source file).
def VICARE_MODE_DHW : String := "dhw"
def VICARE_MODE_HEATING : String := "heating"
def VICARE_MODE_DHWANDHEATING : String := "dhwAndHeating"
def VICARE_MODE_DHWANDHEATINGCOOLING : String := "dhwAndHeatingCooling"
def VICARE_MODE_FORCEDREDUCED : String := "forcedReduced"
def VICARE_MODE_FORCEDNORMAL : String := "forcedNormal"
def VICARE_MODE_OFF : String := "standby"

def VICARE_PROGRAM_COMFORT : String := "comfort"
def VICARE_PROGRAM_ECO : String := "eco"

-- Host-framework string constants (homeassistant.components.climate.const).
def HVAC_MODE_AUTO : String := "auto"
def HVAC_MODE_HEAT : String := "heat"
def HVAC_MODE_OFF : String := "off"
def CURRENT_HVAC_HEAT : String := "heating"
def CURRENT_HVAC_IDLE : String := "idle"
def PRESET_COMFORT : String := "comfort"
def PRESET_ECO : String := "eco"

def VICARE_TEMP_HEATING_MIN : ℚ := 3
def VICARE_TEMP_HEATING_MAX : ℚ := 37

/-- The vendor-to-generic hvac mode table, entries in source order. -/
def VICARE_TO_HA_HVAC_HEATING : List (String × String) :=
  [(VICARE_MODE_DHW, HVAC_MODE_OFF),
   (VICARE_MODE_HEATING, HVAC_MODE_HEAT),
   (VICARE_MODE_DHWANDHEATING, HVAC_MODE_AUTO),
   (VICARE_MODE_DHWANDHEATINGCOOLING, HVAC_MODE_AUTO),
   (VICARE_MODE_FORCEDREDUCED, HVAC_MODE_OFF),
   (VICARE_MODE_FORCEDNORMAL, HVAC_MODE_HEAT),
   (VICARE_MODE_OFF, HVAC_MODE_OFF)]

/-- The generic-to-vendor hvac mode table, entries in source order. -/
def HA_TO_VICARE_HVAC_HEATING : List (String × String) :=
  [(HVAC_MODE_HEAT, VICARE_MODE_FORCEDNORMAL),
   (HVAC_MODE_OFF, VICARE_MODE_FORCEDREDUCED),
   (HVAC_MODE_AUTO, VICARE_MODE_DHWANDHEATING)]

def VICARE_TO_HA_PRESET_HEATING : List (String × String) :=
  [(VICARE_PROGRAM_COMFORT, PRESET_COMFORT),
   (VICARE_PROGRAM_ECO, PRESET_ECO)]

def HA_TO_VICARE_PRESET_HEATING : List (String × String) :=
  [(PRESET_COMFORT, VICARE_PROGRAM_COMFORT),
   (PRESET_ECO, VICARE_PROGRAM_ECO)]

/-- The device-circuit capability object: each getter either returns a value
or signals a `ReadErr`. -/
structure Circuit where
  getRoomTemperature : Except ReadErr ℚ
  getSupplyTemperature : Except ReadErr ℚ
  getActiveProgram : Except ReadErr String
  getCurrentDesiredTemperature : Except ReadErr ℚ
  getActiveMode : Except ReadErr String
  getHeatingCurveSlope : Except ReadErr ℚ
  getHeatingCurveShift : Except ReadErr ℚ
  getTargetSupplyTemperature : Except ReadErr ℚ
  getModes : Except ReadErr (List String)

/-- The appliance capability object: the `burners` / `compressors` property
accesses may themselves signal an error, and each element's `getActive()`
may signal an error. -/
structure Api where
  burners : Except ReadErr (List (Except ReadErr Bool))
  compressors : Except ReadErr (List (Except ReadErr Bool))

/-- The mutable snapshot fields of `ViCareClimate` (those the claims are
about). -/
structure ClimateState where
  attributes : List (String × AttrVal)
  target_temperature : Option ℚ
  current_mode : Option String
  current_temperature : Option ℚ
  current_program : Option String
  current_action : Option Bool
deriving DecidableEq, Repr

/-- `ViCareClimate.__init__`: every snapshot field starts `None`, the
attribute dict starts empty. -/
def initState : ClimateState :=
  { attributes := []
    target_temperature := none
    current_mode := none
    current_temperature := none
    current_program := none
    current_action := none }

/-- One `with suppress(PyViCareNotSupportedFeatureError):` read: a
suppressed read yields no value; any other error propagates. -/
def tryRead {α : Type} (r : Except ReadErr α) : Except ReadErr (Option α) :=
  match r with
  | .ok v => .ok (some v)
  | .error .notSupported => .ok none
  | .error e => .error e

/-- The `for unit in units: action = action or unit.getActive()` loop body:
returns the accumulated flag together with the first uncaught exception, if
any.  Python's `or` short-circuits, so once the flag is true no further
`getActive` call is made. -/
def runUnits (acc : Bool) (units : List (Except ReadErr Bool)) :
    Bool × Option ReadErr :=
  match units with
  | [] => (acc, none)
  | u :: rest =>
      if acc then runUnits acc rest
      else
        match u with
        | .ok b => runUnits b rest
        | .error e => (acc, some e)

/-- One `with suppress(...): for unit in <collection>: ...` block over a
burner/compressor collection: a `notSupported` from the property access or
from any `getActive` is suppressed (keeping the flag accumulated so far);
any other error escapes the block. -/
def runBlock (acc : Bool) (coll : Except ReadErr (List (Except ReadErr Bool))) :
    Bool × Option ReadErr :=
  match coll with
  | .error .notSupported => (acc, none)
  | .error e => (acc, some e)
  | .ok units =>
      match runUnits acc units with
      | (b, none) => (b, none)
      | (b, some .notSupported) => (b, none)
      | (b, some e) => (b, some e)

def ofOptNum (q : Option ℚ) : AttrVal :=
  match q with
  | none => .vNone
  | some q => .vNum q

def ofOptStr (s : Option String) : AttrVal :=
  match s with
  | none => .vNone
  | some s => .vStr s

/-- The tail of the `try` body of `update`, from
`self._attributes = {}` (line 198) through the burner/compressor loops:
takes the state after the five core reads and the local
`_room_temperature`, returns the state at normal exit or at the point an
uncaught exception was raised, plus that exception. -/
def updateAttrs (c : Circuit) (a : Api) (s : ClimateState)
    (roomTemp : Option ℚ) : ClimateState × Option ReadErr :=
  let d0 : List (String × AttrVal) := []
  let d1 := dictSet d0 "room_temperature" (ofOptNum roomTemp)
  let d2 := dictSet d1 "active_vicare_program" (ofOptStr s.current_program)
  let d3 := dictSet d2 "active_vicare_mode" (ofOptStr s.current_mode)
  match tryRead c.getHeatingCurveSlope with
  | .error e => ({ s with attributes := d3 }, some e)
  | .ok slope =>
  let d4 := match slope with
            | some q => dictSet d3 "heating_curve_slope" (.vNum q)
            | none => d3
  match tryRead c.getHeatingCurveShift with
  | .error e => ({ s with attributes := d4 }, some e)
  | .ok shift =>
  let d5 := match shift with
            | some q => dictSet d4 "heating_curve_shift" (.vNum q)
            | none => d4
  match tryRead c.getTargetSupplyTemperature with
  | .error e => ({ s with attributes := d5 }, some e)
  | .ok tsup =>
  let d6 := match tsup with
            | some q => dictSet d5 "target_supply_temperature" (.vNum q)
            | none => d5
  -- Line 219: `self._attributes["vicare_modes"] = self._circuit.getModes()`
  -- is NOT wrapped in a suppress block: every error, `notSupported`
  -- included, escapes here.
  match c.getModes with
  | .error e => ({ s with attributes := d6 }, some e)
  | .ok ms =>
  let d7 := dictSet d6 "vicare_modes" (.vModes ms)
  -- Line 221: `self._current_action = False`, then the two loops.
  match runBlock false a.burners with
  | (b1, some e) =>
      ({ s with attributes := d7, current_action := some b1 }, some e)
  | (b1, none) =>
  match runBlock b1 a.compressors with
  | (b2, e2) =>
      ({ s with attributes := d7, current_action := some b2 }, e2)

/-- The whole `try` body of `update` (lines 172-231): the five core reads,
then `updateAttrs`.  Returns the state at exit and the uncaught exception,
if any. -/
def updateBody (c : Circuit) (a : Api) (s : ClimateState) :
    ClimateState × Option ReadErr :=
  match tryRead c.getRoomTemperature with
  | .error e => (s, some e)
  | .ok roomTemp =>
  match tryRead c.getSupplyTemperature with
  | .error e => (s, some e)
  | .ok supplyTemp =>
  let s := { s with current_temperature :=
               match roomTemp with
               | some v => some v
               | none => supplyTemp }
  match tryRead c.getActiveProgram with
  | .error e => (s, some e)
  | .ok prog =>
  let s := match prog with
           | some p => { s with current_program := some p }
           | none => s
  match tryRead c.getCurrentDesiredTemperature with
  | .error e => (s, some e)
  | .ok desired =>
  let s := match desired with
           | some t => { s with target_temperature := some t }
           | none => s
  match tryRead c.getActiveMode with
  | .error e => (s, some e)
  | .ok mode =>
  let s := match mode with
           | some m => { s with current_mode := some m }
           | none => s
  updateAttrs c a s roomTemp

/-- `ViCareClimate.update`: runs the `try` body, then the four `except`
clauses.  Result: final state, list of error-log messages, and the
exception (if any) that escapes to the caller. -/
def update (c : Circuit) (a : Api) (s : ClimateState) :
    ClimateState × List String × Option ReadErr :=
  match updateBody c a s with
  | (s', none) => (s', [], none)
  | (s', some .connectionError) =>
      (s', ["Unable to retrieve data from ViCare server"], none)
  | (s', some (.rateLimitError m)) =>
      (s', ["Vicare API rate limit exceeded: " ++ m], none)
  | (s', some .valueError) =>
      (s', ["Unable to decode data from ViCare server"], none)
  | (s', some (.invalidDataError m)) =>
      (s', ["Invalid data from Vicare server: " ++ m], none)
  | (s', some .notSupported) => (s', [], some .notSupported)

/-- `hvac_mode` property: `VICARE_TO_HA_HVAC_HEATING.get(self._current_mode)`. -/
def hvac_mode (s : ClimateState) : Option String :=
  tableGetOpt VICARE_TO_HA_HVAC_HEATING s.current_mode

/-- `hvac_modes` property: `list(HA_TO_VICARE_HVAC_HEATING)` (the keys). -/
def hvac_modes : List String :=
  HA_TO_VICARE_HVAC_HEATING.map Prod.fst

/-- `hvac_action` property: `CURRENT_HVAC_HEAT` if `self._current_action`
is truthy (`None` and `False` are both falsy), else `CURRENT_HVAC_IDLE`. -/
def hvac_action (s : ClimateState) : String :=
  match s.current_action with
  | some true => CURRENT_HVAC_HEAT
  | _ => CURRENT_HVAC_IDLE

/-- `preset_mode` property. -/
def preset_mode (s : ClimateState) : Option String :=
  tableGetOpt VICARE_TO_HA_PRESET_HEATING s.current_program

/-- `preset_modes` property. -/
def preset_modes : List String :=
  VICARE_TO_HA_PRESET_HEATING.map Prod.fst

/-- A vendor-API write call emitted by a write operation. -/
inductive VendorCall where
  | setMode (m : String)
  | setProgramTemperature (p : Option String) (t : ℚ)
  | deactivateProgram (p : Option String)
  | activateProgram (p : String)
deriving DecidableEq, Repr

/-- `ViCareClimate.set_hvac_mode`: translate via the generic-to-vendor
table; raise `ValueError` when not found, otherwise emit `setMode`.  The
cached state is returned unchanged (no optimistic update). -/
def set_hvac_mode (s : ClimateState) (hvacMode : String) :
    Except SetErr (ClimateState × List VendorCall) :=
  match tableGet HA_TO_VICARE_HVAC_HEATING hvacMode with
  | none =>
      .error (.valueError
        ("Cannot set invalid vicare mode: " ++ hvacMode ++ " / None"))
  | some vicareMode => .ok (s, [.setMode vicareMode])

/-- `ViCareClimate.set_temperature`: `kwargs.get(ATTR_TEMPERATURE)` is the
`Option ℚ` argument.  When absent, nothing happens; when present, emit
`setProgramTemperature(self._current_program, temp)` and optimistically set
the cached target temperature. -/
def set_temperature (s : ClimateState) (temp : Option ℚ) :
    ClimateState × List VendorCall :=
  match temp with
  | none => (s, [])
  | some t =>
      ({ s with target_temperature := some t },
       [.setProgramTemperature s.current_program t])

/-- `ViCareClimate.set_preset_mode`: translate via the generic-to-vendor
preset table; raise `ValueError` when not found, otherwise emit
`deactivateProgram(self._current_program)` then `activateProgram(program)`,
in that order.  The cached state is returned unchanged. -/
def set_preset_mode (s : ClimateState) (presetMode : String) :
    Except SetErr (ClimateState × List VendorCall) :=
  match tableGet HA_TO_VICARE_PRESET_HEATING presetMode with
  | none =>
      .error (.valueError
        ("Cannot set invalid vicare program: " ++ presetMode ++ "/None"))
  | some vicareProgram =>
      .ok (s, [.deactivateProgram s.current_program,
               .activateProgram vicareProgram])

/-- `ViCareClimate.set_vicare_mode`: `self._attributes["vicare_modes"]`
raises `KeyError` when the key is missing (no poll has stored it yet);
otherwise a non-member string raises `ValueError` and a member is written
through `setMode`. -/
def set_vicare_mode (s : ClimateState) (vicareMode : String) :
    Except SetErr (ClimateState × List VendorCall) :=
  match dictGet s.attributes "vicare_modes" with
  | none => .error (.keyError "vicare_modes")
  | some (.vModes ms) =>
      if vicareMode ∈ ms then .ok (s, [.setMode vicareMode])
      else
        .error (.valueError
          ("Cannot set invalid vicare mode: " ++ vicareMode ++ "."))
  | some _ => .error .typeError

end ViCare

namespace ViCare

/-! ### Helper lemmas about the dict and table operations -/

theorem dictGet_dictSet_same (d : List (String × AttrVal)) (k : String)
    (v : AttrVal) : dictGet (dictSet d k v) k = some v := by
  induction d with
  | nil => simp [dictGet, dictSet]
  | cons p rest ih =>
      obtain ⟨k', v'⟩ := p
      by_cases h : k' = k
      · simp [dictGet, dictSet, h]
      · simp [dictGet, dictSet, h, ih]

theorem dictGet_dictSet_ne (d : List (String × AttrVal)) (k k' : String)
    (v : AttrVal) (h : k' ≠ k) :
    dictGet (dictSet d k v) k' = dictGet d k' := by
  have h' : ¬(k = k') := fun hk => h hk.symm
  induction d with
  | nil => simp [dictGet, dictSet, h']
  | cons p rest ih =>
      obtain ⟨k₀, v₀⟩ := p
      by_cases h₀ : k₀ = k
      · subst h₀
        simp [dictGet, dictSet, h']
      · by_cases h₁ : k₀ = k'
        · simp [dictGet, dictSet, h₀, h₁, h]
        · simp [dictGet, dictSet, h₀, h₁, ih]

theorem dictGet_nil (k : String) : dictGet [] k = none := rfl

theorem tableGet_eq_none_iff (t : List (String × String)) (k : String) :
    tableGet t k = none ↔ k ∉ t.map Prod.fst := by
  induction t with
  | nil => simp [tableGet]
  | cons p rest ih =>
      obtain ⟨k', v⟩ := p
      by_cases h : k' = k
      · simp [tableGet, h]
      · have h' : ¬(k = k') := fun hk => h hk.symm
        simp [tableGet, h, ih, h']

/-! ### Helper lemmas about suppressed reads and the activity loops -/

/-- A read outcome the `except` clauses of `update` never see: either a
value or a suppressed `notSupported`. -/
def benign {α : Type} (r : Except ReadErr α) : Bool :=
  match r with
  | .ok _ => true
  | .error e => !e.serious

theorem tryRead_of_benign {α : Type} (r : Except ReadErr α)
    (h : benign r = true) : ∃ o, tryRead r = .ok o := by
  match r with
  | .ok v => exact ⟨some v, rfl⟩
  | .error .notSupported => exact ⟨none, rfl⟩
  | .error .connectionError => simp [benign, ReadErr.serious] at h
  | .error (.rateLimitError m) => simp [benign, ReadErr.serious] at h
  | .error .valueError => simp [benign, ReadErr.serious] at h
  | .error (.invalidDataError m) => simp [benign, ReadErr.serious] at h

/-- A burner/compressor collection whose property access and element reads
never raise anything the `except` clauses would see. -/
def blockBenign (coll : Except ReadErr (List (Except ReadErr Bool))) : Bool :=
  match coll with
  | .error e => !e.serious
  | .ok units => units.all (fun u => benign u)

theorem runUnits_benign (units : List (Except ReadErr Bool))
    (h : units.all (fun u => benign u) = true) (acc : Bool) :
    (runUnits acc units).2 = none ∨
    (runUnits acc units).2 = some .notSupported := by
  induction units generalizing acc with
  | nil => simp [runUnits]
  | cons u rest ih =>
      simp only [List.all_cons, Bool.and_eq_true] at h
      by_cases hacc : acc = true
      · simpa [runUnits, hacc] using ih h.2 acc
      · replace hacc : acc = false := by revert hacc; cases acc <;> simp
        match u, h.1 with
        | .ok b, _ => simpa [runUnits, hacc] using ih h.2 b
        | .error .notSupported, _ => simp [runUnits, hacc]

theorem runBlock_benign (coll : Except ReadErr (List (Except ReadErr Bool)))
    (h : blockBenign coll = true) (acc : Bool) :
    ∃ b, runBlock acc coll = (b, none) := by
  match coll with
  | .error .notSupported => exact ⟨acc, rfl⟩
  | .error .connectionError => simp [blockBenign, ReadErr.serious] at h
  | .error (.rateLimitError m) => simp [blockBenign, ReadErr.serious] at h
  | .error .valueError => simp [blockBenign, ReadErr.serious] at h
  | .error (.invalidDataError m) => simp [blockBenign, ReadErr.serious] at h
  | .ok units =>
      simp only [blockBenign] at h
      rcases hr : runUnits acc units with ⟨b, exc⟩
      rcases runUnits_benign units h acc with h2 | h2 <;>
        rw [hr] at h2 <;> simp only at h2 <;> subst h2 <;>
        exact ⟨b, by simp [runBlock, hr]⟩

theorem runUnits_all_ok (bs : List Bool) (acc : Bool) :
    runUnits acc (bs.map Except.ok) = (acc || bs.any id, none) := by
  induction bs generalizing acc with
  | nil => simp [runUnits]
  | cons b rest ih =>
      cases acc with
      | true => simpa [runUnits] using ih true
      | false => simpa [runUnits] using ih b

theorem runBlock_all_ok (bs : List Bool) (acc : Bool) :
    runBlock acc (.ok (bs.map Except.ok)) = (acc || bs.any id, none) := by
  simp [runBlock, runUnits_all_ok]

end ViCare

namespace ViCare

/-! ### Structural lemmas about the poll -/

theorem update_fst (c : Circuit) (a : Api) (s : ClimateState) :
    (update c a s).1 = (updateBody c a s).1 := by
  unfold update
  rcases h : updateBody c a s with ⟨s', exc⟩
  rcases exc with _ | e
  · rfl
  · cases e <;> rfl

theorem update_of_body_none (c : Circuit) (a : Api) (s : ClimateState)
    (h : (updateBody c a s).2 = none) :
    update c a s = ((updateBody c a s).1, [], none) := by
  unfold update
  rcases hb : updateBody c a s with ⟨s', exc⟩
  rw [hb] at h
  rcases exc with _ | e
  · rfl
  · simp at h

theorem update_of_body_serious (c : Circuit) (a : Api) (s : ClimateState)
    (e : ReadErr) (hb : (updateBody c a s).2 = some e)
    (he : e.serious = true) :
    (update c a s).2.2 = none ∧ (update c a s).2.1.length = 1 := by
  unfold update
  rcases h : updateBody c a s with ⟨s', exc⟩
  rw [h] at hb
  rcases exc with _ | e'
  · simp at hb
  · have he' : e' = e := by simpa using hb
    subst he'
    cases e' with
  | notSupported => simp [ReadErr.serious] at he
  | connectionError => exact ⟨rfl, rfl⟩
  | rateLimitError m => exact ⟨rfl, rfl⟩
  | valueError => exact ⟨rfl, rfl⟩
  | invalidDataError m => exact ⟨rfl, rfl⟩

/-- The tail of the poll (from the attribute-dict replacement on) never
touches the four core snapshot fields: whichever way it exits, they keep
the values the head of the poll left them with. -/
theorem updateAttrs_core (c : Circuit) (a : Api) (s : ClimateState)
    (rt : Option ℚ) :
    (updateAttrs c a s rt).1.current_temperature = s.current_temperature ∧
    (updateAttrs c a s rt).1.current_program = s.current_program ∧
    (updateAttrs c a s rt).1.target_temperature = s.target_temperature ∧
    (updateAttrs c a s rt).1.current_mode = s.current_mode := by
  dsimp only [updateAttrs]
  repeat' split
  all_goals simp

/-- When the five core reads raise nothing the `except` clauses see, the
poll body reduces to its tail on some intermediate state. -/
theorem updateBody_to_attrs (c : Circuit) (a : Api) (s : ClimateState)
    (h1 : benign c.getRoomTemperature = true)
    (h2 : benign c.getSupplyTemperature = true)
    (h3 : benign c.getActiveProgram = true)
    (h4 : benign c.getCurrentDesiredTemperature = true)
    (h5 : benign c.getActiveMode = true) :
    ∃ s' rt, updateBody c a s = updateAttrs c a s' rt := by
  obtain ⟨o1, e1⟩ := tryRead_of_benign _ h1
  obtain ⟨o2, e2⟩ := tryRead_of_benign _ h2
  obtain ⟨o3, e3⟩ := tryRead_of_benign _ h3
  obtain ⟨o4, e4⟩ := tryRead_of_benign _ h4
  obtain ⟨o5, e5⟩ := tryRead_of_benign _ h5
  dsimp only [updateBody]
  rw [e1, e2, e3, e4, e5]
  exact ⟨_, _, rfl⟩

end ViCare

namespace ViCare

/-- When the tail reads raise nothing the `except` clauses see and
`getModes` succeeds, the tail finishes normally, stores the vendor-mode
list, and leaves the activity flag set. -/
theorem updateAttrs_benign (c : Circuit) (a : Api) (s : ClimateState)
    (rt : Option ℚ) (ms : List String)
    (h6 : benign c.getHeatingCurveSlope = true)
    (h7 : benign c.getHeatingCurveShift = true)
    (h8 : benign c.getTargetSupplyTemperature = true)
    (hm : c.getModes = .ok ms)
    (hb : blockBenign a.burners = true)
    (hc : blockBenign a.compressors = true) :
    (updateAttrs c a s rt).2 = none ∧
    dictGet (updateAttrs c a s rt).1.attributes "vicare_modes"
      = some (.vModes ms) ∧
    (updateAttrs c a s rt).1.current_action.isSome = true := by
  obtain ⟨o6, e6⟩ := tryRead_of_benign _ h6
  obtain ⟨o7, e7⟩ := tryRead_of_benign _ h7
  obtain ⟨o8, e8⟩ := tryRead_of_benign _ h8
  obtain ⟨b1, eb1⟩ := runBlock_benign _ hb false
  dsimp only [updateAttrs]
  rw [e6, e7, e8, hm, eb1]
  dsimp only
  obtain ⟨b2, eb2⟩ := runBlock_benign _ hc b1
  rw [eb2]
  exact ⟨rfl, dictGet_dictSet_same _ _ _, rfl⟩

/-- When every burner and compressor read succeeds, the tail leaves the
activity flag equal to the disjunction of the read flags. -/
theorem updateAttrs_action (c : Circuit) (a : Api) (s : ClimateState)
    (rt : Option ℚ) (ms : List String) (bs cs : List Bool)
    (h6 : benign c.getHeatingCurveSlope = true)
    (h7 : benign c.getHeatingCurveShift = true)
    (h8 : benign c.getTargetSupplyTemperature = true)
    (hm : c.getModes = .ok ms)
    (hbs : a.burners = .ok (bs.map Except.ok))
    (hcs : a.compressors = .ok (cs.map Except.ok)) :
    (updateAttrs c a s rt).1.current_action
      = some (bs.any id || cs.any id) := by
  obtain ⟨o6, e6⟩ := tryRead_of_benign _ h6
  obtain ⟨o7, e7⟩ := tryRead_of_benign _ h7
  obtain ⟨o8, e8⟩ := tryRead_of_benign _ h8
  dsimp only [updateAttrs]
  rw [e6, e7, e8, hm, hbs, runBlock_all_ok]
  dsimp only
  rw [hcs, runBlock_all_ok]
  simp

/-- An unsupported heating-curve-slope read leaves no slope entry in the
rebuilt attribute dict, whichever way the rest of the tail goes. -/
theorem updateAttrs_slope_none (c : Circuit) (a : Api) (s : ClimateState)
    (rt : Option ℚ)
    (h : c.getHeatingCurveSlope = .error .notSupported) :
    dictGet (updateAttrs c a s rt).1.attributes "heating_curve_slope"
      = none := by
  have h' : tryRead c.getHeatingCurveSlope = .ok none := by
    rw [h]; rfl
  dsimp only [updateAttrs]
  rw [h']
  dsimp only
  repeat' split
  all_goals simp_all [dictGet, dictSet]

end ViCare

namespace ViCare

/-- When a poll reads room temperature and active program successfully and
then the heating-curve-shift read raises an error the `except` clauses
catch, the poll body stops there: the newly read values are in place, the
activity flag is still whatever it was before the poll, and the rebuilt
attribute dict has no vendor-modes or target-supply entry. -/
theorem updateBody_shift_err (c : Circuit) (a : Api) (s : ClimateState)
    (rt : ℚ) (p : String) (e : ReadErr)
    (hr : c.getRoomTemperature = .ok rt)
    (hsup : benign c.getSupplyTemperature = true)
    (hp : c.getActiveProgram = .ok p)
    (ht : benign c.getCurrentDesiredTemperature = true)
    (hmo : benign c.getActiveMode = true)
    (hsl : benign c.getHeatingCurveSlope = true)
    (hsh : c.getHeatingCurveShift = .error e)
    (he : e.serious = true) :
    (updateBody c a s).2 = some e ∧
    (updateBody c a s).1.current_temperature = some rt ∧
    (updateBody c a s).1.current_program = some p ∧
    (updateBody c a s).1.current_action = s.current_action ∧
    dictGet (updateBody c a s).1.attributes "vicare_modes" = none ∧
    dictGet (updateBody c a s).1.attributes "target_supply_temperature"
      = none := by
  have hr' : tryRead c.getRoomTemperature = .ok (some rt) := by
    rw [hr]; rfl
  have hp' : tryRead c.getActiveProgram = .ok (some p) := by
    rw [hp]; rfl
  obtain ⟨o2, e2⟩ := tryRead_of_benign _ hsup
  obtain ⟨o4, e4⟩ := tryRead_of_benign _ ht
  obtain ⟨o5, e5⟩ := tryRead_of_benign _ hmo
  obtain ⟨o6, e6⟩ := tryRead_of_benign _ hsl
  have hsh' : tryRead c.getHeatingCurveShift = .error e := by
    rw [hsh]
    cases e <;> first | rfl | simp [ReadErr.serious] at he
  dsimp only [updateBody, updateAttrs]
  rw [hr', e2, hp', e4, e5, e6, hsh']
  dsimp only
  rcases o4 with _ | t <;> rcases o5 with _ | m <;> rcases o6 with _ | q <;>
    refine ⟨rfl, rfl, rfl, rfl, ?_, ?_⟩ <;> simp [dictGet, dictSet]

/-- The hvac action accessor only ever produces the heating or the idle
label. -/
theorem hvac_action_ne_off (s : ClimateState) :
    hvac_action s ≠ HVAC_MODE_OFF := by
  cases hca : s.current_action with
  | none => simp [hvac_action, hca, CURRENT_HVAC_IDLE, HVAC_MODE_OFF]
  | some b =>
      cases b <;>
        simp [hvac_action, hca, CURRENT_HVAC_HEAT, CURRENT_HVAC_IDLE,
          HVAC_MODE_OFF]

end ViCare

namespace ViCare

/-! ### Concrete fixtures -/

/-- A circuit on which every read succeeds (values from the spec's poll
scenarios). -/
def okCircuit : Circuit :=
  { getRoomTemperature := .ok 22
    getSupplyTemperature := .ok 45
    getActiveProgram := .ok "normal"
    getCurrentDesiredTemperature := .ok 21
    getActiveMode := .ok "heating"
    getHeatingCurveSlope := .ok (14/10)
    getHeatingCurveShift := .ok 0
    getTargetSupplyTemperature := .ok 50
    getModes := .ok ["dhw", "heating"] }

/-- An appliance with one inactive and one active burner and no
compressors (the spec's activity scenario). -/
def okApi : Api :=
  { burners := .ok [.ok false, .ok true]
    compressors := .ok [] }

/-- The snapshot after one fully successful poll from the initial state. -/
def pollState : ClimateState := (update okCircuit okApi initState).1

/-- A circuit on which every read signals "feature not supported". -/
def nsCircuit : Circuit :=
  { getRoomTemperature := .error .notSupported
    getSupplyTemperature := .error .notSupported
    getActiveProgram := .error .notSupported
    getCurrentDesiredTemperature := .error .notSupported
    getActiveMode := .error .notSupported
    getHeatingCurveSlope := .error .notSupported
    getHeatingCurveShift := .error .notSupported
    getTargetSupplyTemperature := .error .notSupported
    getModes := .error .notSupported }

/-- A circuit whose active-program read signals "feature not supported". -/
def c1Circuit : Circuit :=
  { okCircuit with getActiveProgram := .error .notSupported }

/-- A circuit whose vendor-modes read signals "feature not supported". -/
def c2Circuit : Circuit :=
  { okCircuit with getModes := .error .notSupported }

/-- A circuit whose heating-curve-shift read raises a decode failure. -/
def c3Circuit : Circuit :=
  { okCircuit with getHeatingCurveShift := .error .valueError }

/-- An appliance exposing no burners and no compressors. -/
def noneApi : Api := { burners := .ok [], compressors := .ok [] }

/-! ### Claim C1 -/

/-- C1 counterexample: a poll on a state left by a previous successful poll
(cached active program "normal"), whose active-program read signals
"feature not supported", finishes without raising, yet leaves the cached
active program holding the previous poll's value instead of null. -/
theorem C1_counterexample :
    c1Circuit.getActiveProgram = .error .notSupported ∧
    pollState.current_program = some "normal" ∧
    (update c1Circuit okApi pollState).2.2 = none ∧
    (update c1Circuit okApi pollState).1.current_program = some "normal" :=
  ⟨rfl, rfl, rfl, rfl⟩

/-- C1 amended: when the temperature reads signal "feature not supported"
the poll does end with a null current temperature, and an unsupported
conditional attribute read leaves that attribute absent; but when the
active-program, target-temperature or active-mode read signals "feature
not supported", the field keeps the previous poll's value — it is not
overwritten to null first. -/
theorem C1_amended (c : Circuit) (a : Api) (s : ClimateState)
    (hr : c.getRoomTemperature = .error .notSupported)
    (hsup : c.getSupplyTemperature = .error .notSupported)
    (hp : c.getActiveProgram = .error .notSupported)
    (ht : c.getCurrentDesiredTemperature = .error .notSupported)
    (hmo : c.getActiveMode = .error .notSupported)
    (hsl : c.getHeatingCurveSlope = .error .notSupported) :
    (update c a s).1.current_temperature = none ∧
    dictGet (update c a s).1.attributes "heating_curve_slope" = none ∧
    (update c a s).1.current_program = s.current_program ∧
    (update c a s).1.target_temperature = s.target_temperature ∧
    (update c a s).1.current_mode = s.current_mode := by
  have hr' : tryRead c.getRoomTemperature = .ok none := by rw [hr]; rfl
  have hsup' : tryRead c.getSupplyTemperature = .ok none := by rw [hsup]; rfl
  have hp' : tryRead c.getActiveProgram = .ok none := by rw [hp]; rfl
  have ht' : tryRead c.getCurrentDesiredTemperature = .ok none := by
    rw [ht]; rfl
  have hmo' : tryRead c.getActiveMode = .ok none := by rw [hmo]; rfl
  have hbody : updateBody c a s
      = updateAttrs c a { s with current_temperature := none } none := by
    dsimp only [updateBody]
    rw [hr', hsup', hp', ht', hmo']
  obtain ⟨hct, hcp, htt, hcm⟩ :=
    updateAttrs_core c a { s with current_temperature := none } none
  have hslope :=
    updateAttrs_slope_none c a { s with current_temperature := none } none hsl
  rw [update_fst, hbody]
  exact ⟨hct, hslope, hcp, htt, hcm⟩

/-- C1 witness: the amended statement at the all-unsupported circuit,
starting from the snapshot of a previous successful poll. -/
theorem C1_witness :
    (update nsCircuit okApi pollState).1.current_temperature = none ∧
    dictGet (update nsCircuit okApi pollState).1.attributes
      "heating_curve_slope" = none ∧
    (update nsCircuit okApi pollState).1.current_program
      = pollState.current_program ∧
    (update nsCircuit okApi pollState).1.target_temperature
      = pollState.target_temperature ∧
    (update nsCircuit okApi pollState).1.current_mode
      = pollState.current_mode :=
  C1_amended nsCircuit okApi pollState rfl rfl rfl rfl rfl rfl

end ViCare

namespace ViCare

/-! ### Claim C2 -/

/-- C2 counterexample: the vendor-modes read (`getModes`) is the one read
of the poll not wrapped in a suppress block, so its "feature not
supported" signal escapes `update` to the caller. -/
theorem C2_counterexample :
    c2Circuit.getModes = .error .notSupported ∧
    (update c2Circuit okApi initState).2.2 = some .notSupported :=
  ⟨rfl, rfl⟩

/-- C2 amended: for every read other than `getModes`, a "feature not
supported" signal is caught inside `update`, does not abort the remaining
reads (the vendor-mode list is still stored and the activity flag still
set) and nothing is raised or logged; this requires `getModes` itself to
succeed, since its "feature not supported" signal escapes to the caller. -/
theorem C2_amended (c : Circuit) (a : Api) (s : ClimateState)
    (ms : List String)
    (h1 : benign c.getRoomTemperature = true)
    (h2 : benign c.getSupplyTemperature = true)
    (h3 : benign c.getActiveProgram = true)
    (h4 : benign c.getCurrentDesiredTemperature = true)
    (h5 : benign c.getActiveMode = true)
    (h6 : benign c.getHeatingCurveSlope = true)
    (h7 : benign c.getHeatingCurveShift = true)
    (h8 : benign c.getTargetSupplyTemperature = true)
    (hm : c.getModes = .ok ms)
    (hb : blockBenign a.burners = true)
    (hc : blockBenign a.compressors = true) :
    (update c a s).2.2 = none ∧
    (update c a s).2.1 = [] ∧
    dictGet (update c a s).1.attributes "vicare_modes"
      = some (.vModes ms) ∧
    (update c a s).1.current_action.isSome = true := by
  obtain ⟨s', rt, hsd⟩ := updateBody_to_attrs c a s h1 h2 h3 h4 h5
  obtain ⟨hA2, hAvm, hAact⟩ :=
    updateAttrs_benign c a s' rt ms h6 h7 h8 hm hb hc
  have hb2 : (updateBody c a s).2 = none := by rw [hsd]; exact hA2
  have hupd := update_of_body_none c a s hb2
  rw [hupd, hsd]
  exact ⟨rfl, rfl, hAvm, hAact⟩

/-- C2 witness: the amended statement on the all-successful circuit, where
some reads could equally have been unsupported. -/
theorem C2_witness :
    (update okCircuit okApi initState).2.2 = none ∧
    (update okCircuit okApi initState).2.1 = [] ∧
    dictGet (update okCircuit okApi initState).1.attributes "vicare_modes"
      = some (.vModes ["dhw", "heating"]) ∧
    (update okCircuit okApi initState).1.current_action.isSome = true :=
  C2_amended okCircuit okApi initState ["dhw", "heating"]
    rfl rfl rfl rfl rfl rfl rfl rfl rfl rfl rfl

/-! ### Claim C3 -/

/-- C3 counterexample: on a poll whose heating-curve-shift read raises a
decode failure, starting from a previous successful snapshot whose
attribute map held a vendor-modes entry, the poll logs once and raises
nothing — but the attribute-map entry does not retain its prior value: it
is absent, because the map was replaced wholesale at the start of the
attribute phase. -/
theorem C3_counterexample :
    c3Circuit.getHeatingCurveShift = .error .valueError ∧
    dictGet pollState.attributes "vicare_modes"
      = some (.vModes ["dhw", "heating"]) ∧
    (update c3Circuit okApi pollState).2.1
      = ["Unable to decode data from ViCare server"] ∧
    (update c3Circuit okApi pollState).2.2 = none ∧
    dictGet (update c3Circuit okApi pollState).1.attributes "vicare_modes"
      = none :=
  ⟨rfl, rfl, rfl, rfl, rfl⟩

/-- C3 amended: a read failure from one of the four caught error classes
(here at the heating-curve-shift read) aborts the rest of the poll, logs
exactly one error, raises nothing; instance fields written before the
failure keep their newly read values and instance fields not yet assigned
(the activity flag) retain the prior snapshot's values — but attribute-map
entries are not retained: entries not yet rewritten when the failure hits
are absent, because the map was already replaced by a fresh one. -/
theorem C3_amended (c : Circuit) (a : Api) (s : ClimateState)
    (rt : ℚ) (p : String) (e : ReadErr)
    (hr : c.getRoomTemperature = .ok rt)
    (hsup : benign c.getSupplyTemperature = true)
    (hp : c.getActiveProgram = .ok p)
    (ht : benign c.getCurrentDesiredTemperature = true)
    (hmo : benign c.getActiveMode = true)
    (hsl : benign c.getHeatingCurveSlope = true)
    (hsh : c.getHeatingCurveShift = .error e)
    (he : e.serious = true) :
    (update c a s).2.2 = none ∧
    (update c a s).2.1.length = 1 ∧
    (update c a s).1.current_temperature = some rt ∧
    (update c a s).1.current_program = some p ∧
    (update c a s).1.current_action = s.current_action ∧
    dictGet (update c a s).1.attributes "vicare_modes" = none ∧
    dictGet (update c a s).1.attributes "target_supply_temperature"
      = none := by
  obtain ⟨hb2, hct, hcp, hca, hvm, hts⟩ :=
    updateBody_shift_err c a s rt p e hr hsup hp ht hmo hsl hsh he
  obtain ⟨hn, hl⟩ := update_of_body_serious c a s e hb2 he
  have hf := update_fst c a s
  rw [hf]
  exact ⟨hn, hl, hct, hcp, hca, hvm, hts⟩

/-- C3 witness: the amended statement at the decode-failure circuit,
starting from a previous successful snapshot. -/
theorem C3_witness :
    (update c3Circuit okApi pollState).2.2 = none ∧
    (update c3Circuit okApi pollState).2.1.length = 1 ∧
    (update c3Circuit okApi pollState).1.current_temperature = some 22 ∧
    (update c3Circuit okApi pollState).1.current_program = some "normal" ∧
    (update c3Circuit okApi pollState).1.current_action
      = pollState.current_action ∧
    dictGet (update c3Circuit okApi pollState).1.attributes "vicare_modes"
      = none ∧
    dictGet (update c3Circuit okApi pollState).1.attributes
      "target_supply_temperature" = none :=
  C3_amended c3Circuit okApi pollState 22 "normal" .valueError
    rfl rfl rfl rfl rfl rfl rfl rfl

/-! ### Claim C4 -/

/-- C4 counterexample: after a poll on an appliance exposing no burners
and no compressors, the activity flag is false, not absent — the poll sets
it to false unconditionally before scanning the (empty) collections. -/
theorem C4_counterexample :
    noneApi.burners = .ok [] ∧
    noneApi.compressors = .ok [] ∧
    (update okCircuit noneApi initState).1.current_action = some false ∧
    (update okCircuit noneApi initState).1.current_action ≠ none :=
  ⟨rfl, rfl, rfl, by decide⟩

/-- C4 amended: after a successful poll the activity flag equals the
logical OR of the burners' and compressors' activity flags — defaulting to
false, never absent, even when the appliance exposes none — and the hvac
action is "heating" exactly when the flag is true and "idle" otherwise,
never "off". -/
theorem C4_amended (c : Circuit) (a : Api) (s : ClimateState)
    (ms : List String) (bs cs : List Bool)
    (h1 : benign c.getRoomTemperature = true)
    (h2 : benign c.getSupplyTemperature = true)
    (h3 : benign c.getActiveProgram = true)
    (h4 : benign c.getCurrentDesiredTemperature = true)
    (h5 : benign c.getActiveMode = true)
    (h6 : benign c.getHeatingCurveSlope = true)
    (h7 : benign c.getHeatingCurveShift = true)
    (h8 : benign c.getTargetSupplyTemperature = true)
    (hm : c.getModes = .ok ms)
    (hbs : a.burners = .ok (bs.map Except.ok))
    (hcs : a.compressors = .ok (cs.map Except.ok)) :
    (update c a s).1.current_action = some (bs.any id || cs.any id) ∧
    hvac_action (update c a s).1
      = (if bs.any id || cs.any id then CURRENT_HVAC_HEAT
         else CURRENT_HVAC_IDLE) ∧
    (∀ s2 : ClimateState, hvac_action s2 ≠ HVAC_MODE_OFF) := by
  obtain ⟨s', rt, hsd⟩ := updateBody_to_attrs c a s h1 h2 h3 h4 h5
  have hact := updateAttrs_action c a s' rt ms bs cs h6 h7 h8 hm hbs hcs
  have hone : (update c a s).1.current_action
      = some (bs.any id || cs.any id) := by
    rw [update_fst, hsd]; exact hact
  refine ⟨hone, ?_, fun s2 => hvac_action_ne_off s2⟩
  cases hval : (bs.any id || cs.any id) with
  | false => simp [hvac_action, hone, hval]
  | true => simp [hvac_action, hone, hval]

/-- C4 witness: the amended statement on burners [inactive, active] and no
compressors; the hvac action comes out "heating". -/
theorem C4_witness :
    (update okCircuit okApi initState).1.current_action
      = some (List.any [false, true] id || List.any ([] : List Bool) id) ∧
    hvac_action (update okCircuit okApi initState).1
      = (if List.any [false, true] id || List.any ([] : List Bool) id
         then CURRENT_HVAC_HEAT else CURRENT_HVAC_IDLE) ∧
    (∀ s2 : ClimateState, hvac_action s2 ≠ HVAC_MODE_OFF) :=
  C4_amended okCircuit okApi initState ["dhw", "heating"] [false, true] []
    rfl rfl rfl rfl rfl rfl rfl rfl rfl rfl rfl

end ViCare

namespace ViCare

/-! ### Claims C5 - C10 -/

/-- C5: calling `set_temperature` with no temperature value performs no
vendor write and leaves the cached target temperature (and the whole
state) unchanged; with a value v it issues
`setProgramTemperature(cached program, v)` and immediately sets the cached
target temperature to v. -/
theorem C5_set_temperature (s : ClimateState) (v : ℚ) :
    set_temperature s none = (s, []) ∧
    set_temperature s (some v)
      = ({ s with target_temperature := some v },
         [.setProgramTemperature s.current_program v]) :=
  ⟨rfl, rfl⟩

/-- C6: `set_hvac_mode` on a generic mode outside {heat, off, auto} raises
`ValueError` and performs no vendor write; on a mapped mode it issues one
`setMode` of the table-mapped vendor mode; in both cases the cached state
is unchanged. -/
theorem C6_set_hvac_mode (s : ClimateState) (m : String) :
    (m ∉ hvac_modes →
      set_hvac_mode s m =
        .error (.valueError
          ("Cannot set invalid vicare mode: " ++ m ++ " / None"))) ∧
    (∀ vm, tableGet HA_TO_VICARE_HVAC_HEATING m = some vm →
      set_hvac_mode s m = .ok (s, [.setMode vm])) := by
  constructor
  · intro h
    have hn : tableGet HA_TO_VICARE_HVAC_HEATING m = none :=
      (tableGet_eq_none_iff _ _).mpr h
    simp [set_hvac_mode, hn]
  · intro vm hvm
    simp [set_hvac_mode, hvm]

/-- C6 witness: "dry" is rejected with no write; "heat" maps to
forcedNormal and leaves the cached state unchanged. -/
theorem C6_witness :
    set_hvac_mode initState "dry"
      = .error (.valueError "Cannot set invalid vicare mode: dry / None") ∧
    set_hvac_mode initState "heat"
      = .ok (initState, [.setMode "forcedNormal"]) :=
  ⟨(C6_set_hvac_mode initState "dry").1 (by decide),
   (C6_set_hvac_mode initState "heat").2 "forcedNormal" (by decide)⟩

/-- C7: `set_preset_mode` on a preset outside {comfort, eco} raises
`ValueError` and performs no vendor write; on a valid preset it issues
exactly two vendor calls in order: deactivate the cached active program,
then activate the mapped vendor program. -/
theorem C7_set_preset_mode (s : ClimateState) (m : String) :
    (m ∉ [PRESET_COMFORT, PRESET_ECO] →
      set_preset_mode s m =
        .error (.valueError
          ("Cannot set invalid vicare program: " ++ m ++ "/None"))) ∧
    (∀ vp, tableGet HA_TO_VICARE_PRESET_HEATING m = some vp →
      set_preset_mode s m
        = .ok (s, [.deactivateProgram s.current_program,
                   .activateProgram vp])) := by
  constructor
  · intro h
    have hn : tableGet HA_TO_VICARE_PRESET_HEATING m = none := by
      refine (tableGet_eq_none_iff _ _).mpr ?_
      simpa [HA_TO_VICARE_PRESET_HEATING, PRESET_COMFORT, PRESET_ECO]
        using h
    simp [set_preset_mode, hn]
  · intro vp hvp
    simp [set_preset_mode, hvp]

/-- C7 witness: "away" is rejected with no write; "comfort" on the cached
snapshot issues deactivate(normal) then activate(comfort), in order. -/
theorem C7_witness :
    set_preset_mode initState "away"
      = .error (.valueError "Cannot set invalid vicare program: away/None") ∧
    set_preset_mode pollState "comfort"
      = .ok (pollState, [.deactivateProgram pollState.current_program,
                         .activateProgram "comfort"]) :=
  ⟨(C7_set_preset_mode initState "away").1 (by decide),
   (C7_set_preset_mode pollState "comfort").2 "comfort" (by decide)⟩

/-- C8: with a cached vendor-modes list in the attribute map,
`set_vicare_mode` rejects a non-member string with `ValueError` and no
vendor write, and writes a member string directly through one `setMode`. -/
theorem C8_set_vicare_mode (s : ClimateState) (m : String)
    (ms : List String)
    (hms : dictGet s.attributes "vicare_modes" = some (.vModes ms)) :
    (m ∉ ms →
      set_vicare_mode s m =
        .error (.valueError ("Cannot set invalid vicare mode: " ++ m ++ "."))) ∧
    (m ∈ ms → set_vicare_mode s m = .ok (s, [.setMode m])) := by
  constructor <;> intro h <;> simp [set_vicare_mode, hms, h]

/-- C8 witness: with cached vendor modes ["dhw", "heating"],
`set_vicare_mode "bogus"` raises `ValueError` and performs no write, and
`set_vicare_mode "dhw"` writes through. -/
theorem C8_witness :
    dictGet pollState.attributes "vicare_modes"
      = some (.vModes ["dhw", "heating"]) ∧
    set_vicare_mode pollState "bogus"
      = .error (.valueError "Cannot set invalid vicare mode: bogus.") ∧
    set_vicare_mode pollState "dhw" = .ok (pollState, [.setMode "dhw"]) :=
  ⟨rfl,
   (C8_set_vicare_mode pollState "bogus" ["dhw", "heating"] rfl).1
     (by decide),
   (C8_set_vicare_mode pollState "dhw" ["dhw", "heating"] rfl).2
     (by decide)⟩

/-- C9: the three distinct vendor modes forcedReduced, dhw and standby all
translate to the generic mode "off" (the vendor-to-generic table is
lossy); the generic-to-vendor table is not the inverse of the
vendor-to-generic table (dhw maps to "off", which maps back to
forcedReduced); and every value of the vendor-to-generic table is a member
of the exposed generic hvac-mode list. -/
theorem C9_mode_tables :
    tableGet VICARE_TO_HA_HVAC_HEATING VICARE_MODE_FORCEDREDUCED
      = some HVAC_MODE_OFF ∧
    tableGet VICARE_TO_HA_HVAC_HEATING VICARE_MODE_DHW
      = some HVAC_MODE_OFF ∧
    tableGet VICARE_TO_HA_HVAC_HEATING VICARE_MODE_OFF
      = some HVAC_MODE_OFF ∧
    (VICARE_MODE_FORCEDREDUCED ≠ VICARE_MODE_DHW ∧
     VICARE_MODE_DHW ≠ VICARE_MODE_OFF ∧
     VICARE_MODE_FORCEDREDUCED ≠ VICARE_MODE_OFF) ∧
    (∃ p ∈ VICARE_TO_HA_HVAC_HEATING,
      tableGetOpt HA_TO_VICARE_HVAC_HEATING
          (tableGet VICARE_TO_HA_HVAC_HEATING p.1) ≠ some p.1) ∧
    (∀ p ∈ VICARE_TO_HA_HVAC_HEATING, p.2 ∈ hvac_modes) := by
  decide

/-- C10: before any successful poll the attribute map is still the empty
dict of construction, so `set_vicare_mode` fails on the dict lookup itself
with `KeyError` — not with the `ValueError` of the validation path — and
performs no vendor write. -/
theorem C10_set_vicare_mode_before_poll (m : String) :
    set_vicare_mode initState m = .error (.keyError "vicare_modes") ∧
    (∀ msg, set_vicare_mode initState m ≠ .error (.valueError msg)) := by
  constructor
  · rfl
  · intro msg h
    have h0 : set_vicare_mode initState m
        = .error (.keyError "vicare_modes") := rfl
    rw [h0] at h
    exact SetErr.noConfusion (Except.error.inj h)

end ViCare

namespace ViCare

/-- C5 witness: the statement at the initial state with the spec's example
value 23. -/
theorem C5_witness :
    set_temperature initState none = (initState, []) ∧
    set_temperature initState (some 23)
      = ({ initState with target_temperature := some 23 },
         [.setProgramTemperature initState.current_program 23]) :=
  C5_set_temperature initState 23

/-- C10 witness: the statement at a concrete mode string. -/
theorem C10_witness :
    set_vicare_mode initState "bogus"
      = .error (.keyError "vicare_modes") :=
  (C10_set_vicare_mode_before_poll "bogus").1

end ViCare
